import Mathlib

/-!
Verification development for the AI-Broker freight-intake pipeline.

The definitions below are a shallow embedding of the Python sources:

* `intake_graph.py` — required-field validation (`missing`), the
  rule-based complexity classifier (`detect_freight_complexity`), the
  complete-load write (`ack`) and the incomplete-load write
  (`save_incomplete_load`);
* `handle_missing_info_response.py` — the follow-up resolver
  (`find_incomplete_load_by_email`) and the merge step
  (`update_incomplete_load`);
* `src/services/carrier_matching.py` — the carrier scorer and ranking
  (`_score_carrier`, `match_carriers_for_load`);
* `src/agents/loadblast/graph.py` — the dispatch recorder
  (`send_carrier_emails`, `record_blast_activity`).

Modelling conventions, used throughout:

* Python dictionary values are modelled by `PyVal`; `dict.get` is
  `dictGet`/`dictGetD`.  `PyVal.none` stands for both an absent key and
  an explicit `None`/JSON null, exactly as `dict.get(k)` conflates them.
* Decimal float constants in the sources (`0.95`, `0.01`, ...) are all
  exact multiples of `1/1000`; percentages and ratios are therefore
  represented in per-mille as `Int` (`0.95 ↦ 950`), which keeps every
  comparison in the source exact.  Scores, which are integer-valued
  floats in the source (`30.0`, `25.0`, ...), are represented as `Int`.
* `re.findall(pat, text)` results are used by the classifier only
  through their truthiness (and, for the rationale text, their display);
  the model records, per pattern, whether the pattern matches anywhere
  in the text (`reSearch`), which is equivalent to `findall` returning a
  non-empty list for these anchor-free patterns.  The zip-code pattern
  `\b\d{5}\b`, whose distinct-match count feeds a threshold, is modelled
  exactly (`zipCodes`): its matches can never overlap, so position
  scanning coincides with `findall`.
* Wall-clock timestamps (`datetime.now()`) are passed in as explicit
  parameters; external I/O (database, email delivery) is modelled as
  explicit state passing over the record lists the code reads/writes.
-/

/-- A value stored in one of the Python dictionaries the pipeline passes
around (extraction results, database rows).  `none` models Python
`None` (and an absent key, as seen through `dict.get`).  The `float`
constructor keeps an integer payload for rendering; the classifier only
ever inspects the type tag of non-`int` numbers (`isinstance(x, int)`). -/
inductive PyVal where
  | none
  | bool (b : Bool)
  | int (n : Int)
  | float (q : Int)
  | str (s : String)
  deriving DecidableEq, Repr

/-- A Python `dict` with string keys, as an association list (first
binding wins on lookup; keys are unique in all states the code builds). -/
abbrev Dict := List (String × PyVal)

/-- `d.get(k)`: the value bound to `k`, or `None` when absent. -/
def dictGet (d : Dict) (k : String) : PyVal :=
  match d.find? (fun p => p.1 == k) with
  | some p => p.2
  | Option.none => PyVal.none

/-- `d.get(k, default)`. -/
def dictGetD (d : Dict) (k : String) (dflt : PyVal) : PyVal :=
  match d.find? (fun p => p.1 == k) with
  | some p => p.2
  | Option.none => dflt

/-- Writing `d[k] = v` into a dict (`{**d, k: v}` / `.update`): the
binding for `k` is replaced.  The model re-binds at the front and drops
the old binding; only lookups observe a dict, so binding order is
unobservable. -/
def dictUpsert (d : Dict) (k : String) (v : PyVal) : Dict :=
  (k, v) :: d.filter (fun p => !(p.1 == k))

/-- Python truthiness of a value (`bool(v)`), as used by `if v:` tests. -/
def pyTruthy : PyVal → Bool
  | .none => false
  | .bool b => b
  | .int n => !(n == 0)
  | .float q => !(q == 0)
  | .str s => !(s == "")

/-- `isinstance(v, int)` — in Python this also accepts `bool`, a
subclass of `int`. -/
def pyIsIntLike : PyVal → Bool
  | .int _ => true
  | .bool _ => true
  | _ => false

/-- The integer content of an `int`-like value (`True == 1`).  Only
consulted under a `pyIsIntLike` guard, mirroring the source's
`isinstance` checks. -/
def pyIntVal : PyVal → Int
  | .int n => n
  | .bool b => if b then 1 else 0
  | _ => 0

/-- Crude `str(v)` used when a value is spliced into a rationale
string; the exact rendering is not load-bearing anywhere. -/
def pyRepr : PyVal → String
  | .none => "None"
  | .bool b => if b then "True" else "False"
  | .int n => toString n
  | .float q => toString q ++ ".0"
  | .str s => s

/-- ASCII lower-casing, modelling `str.lower()` on the ASCII e-mail
text the pipeline handles (spelled out over the character list so that
it evaluates by kernel reduction). -/
def lowerAscii (s : String) : String := String.mk (s.toList.map Char.toLower)

/-- `needle.isPrefixOf hay ∨ needle occurs later`: substring test on
character lists. -/
def containsSub (needle : List Char) : List Char → Bool
  | [] => needle.isEmpty
  | c :: t => needle.isPrefixOf (c :: t) || containsSub needle t

/-- Python's `needle in hay` on strings. -/
def strContains (hay needle : String) : Bool := containsSub needle.toList hay.toList

/-- One token of the small regular-expression language that covers every
pattern literal in `detect_freight_complexity`: literal characters,
`\d`, `\d+`, `.*` (`.` not matching a newline, as in `re`), and an
optional character (`s?`). -/
inductive Tok where
  | lit (c : Char)
  | digit
  | digitPlus
  | dotStar
  | optChar (c : Char)
  deriving DecidableEq, Repr

/-- Fuel-indexed matcher: does the token list match some prefix of the
character list?  Every recursive call spends one unit of fuel and
strictly decreases `ts.length + cs.length`, so any fuel above that sum
never reaches the (all-fail) `0` case; `matchToksPre` below always
supplies such fuel.  Fuel (instead of a lexicographic measure) keeps
the function structurally recursive, hence kernel-computable. -/
def matchToksPreF : Nat → List Tok → List Char → Bool
  | 0, _, _ => false
  | _ + 1, [], _ => true
  | _ + 1, .lit _ :: _, [] => false
  | n + 1, .lit c :: ts, x :: xs => x == c && matchToksPreF n ts xs
  | _ + 1, .digit :: _, [] => false
  | n + 1, .digit :: ts, x :: xs => x.isDigit && matchToksPreF n ts xs
  | _ + 1, .digitPlus :: _, [] => false
  | n + 1, .digitPlus :: ts, x :: xs =>
      x.isDigit && (matchToksPreF n ts xs || matchToksPreF n (.digitPlus :: ts) xs)
  | n + 1, .dotStar :: ts, [] => matchToksPreF n ts []
  | n + 1, .dotStar :: ts, x :: xs =>
      matchToksPreF n ts (x :: xs) || (!(x == '\n') && matchToksPreF n (.dotStar :: ts) xs)
  | n + 1, .optChar _ :: ts, [] => matchToksPreF n ts []
  | n + 1, .optChar c :: ts, x :: xs =>
      matchToksPreF n ts (x :: xs) || (x == c && matchToksPreF n ts xs)

/-- Does the token list match some prefix of the character list? -/
def matchToksPre (ts : List Tok) (cs : List Char) : Bool :=
  matchToksPreF (ts.length + cs.length + 1) ts cs

/-- Search anywhere in the list: some suffix has a matching prefix. -/
def hasMatchAux (ts : List Tok) : List Char → Bool
  | [] => matchToksPre ts []
  | c :: cs => matchToksPre ts (c :: cs) || hasMatchAux ts cs

/-- `bool(re.findall(pat, s))` for the classifier's anchor-free
patterns: the pattern matches somewhere in `s`. -/
def reSearch (ts : List Tok) (s : String) : Bool := hasMatchAux ts s.toList

/-- Literal-character run of a pattern. -/
def lits (s : String) : List Tok := s.toList.map Tok.lit

/-- A `\w` character for the `\b` boundaries of the zip-code pattern. -/
def isWordChar (c : Char) : Bool := c.isAlphanum || c == '_'

/-- Scan for `\b\d{5}\b` matches; `prev` is the character preceding the
current position (for the left boundary).  Such matches can never
overlap, so collecting every matching position reproduces
`re.findall(r'\b\d{5}\b', text)` exactly. -/
def zipScan : Option Char → List Char → List String
  | _, [] => []
  | prev, c :: rest =>
      let boundaryBefore : Bool :=
        match prev with
        | Option.none => true
        | some p => !isWordChar p
      let here : List String :=
        match c :: rest with
        | a :: b :: c2 :: d :: e :: rest2 =>
            if boundaryBefore && a.isDigit && b.isDigit && c2.isDigit &&
                d.isDigit && e.isDigit &&
                (match rest2 with
                 | [] => true
                 | f :: _ => !isWordChar f) then
              [String.mk [a, b, c2, d, e]]
            else []
        | _ => []
      here ++ zipScan (some c) rest

/-- All zip-code-like tokens of the raw text
(`re.findall(r'\b\d{5}\b', raw_text)`). -/
def zipCodes (s : String) : List String := zipScan Option.none s.toList

/-- The keywords of a detector that occur in the lowered text
(`[kw for kw in kws if kw in text_lower]`). -/
def detectedKws (kws : List String) (textLower : String) : List String :=
  kws.filter (fun kw => strContains textLower kw)

/-- The patterns of a detector that fire on the lowered text.  The
source collects the matched substrings (`re.findall`); flag decisions
only consume the truthiness of that collection, which this list's
non-emptiness reproduces. -/
def firedPats (pats : List (List Tok)) (textLower : String) : List (List Tok) :=
  pats.filter (fun p => reSearch p textLower)

/-- The required fields of a load (`REQUIRED` in `intake_graph.py`). -/
def REQUIRED : List String :=
  ["origin_zip", "dest_zip", "pickup_dt", "equipment", "weight_lb"]

/-- `missing(d)`: the required fields whose value is absent or falsy. -/
def missingFields (d : Dict) : List String :=
  REQUIRED.filter (fun f => !pyTruthy (dictGet d f))

/-- Hazmat keyword set of `detect_freight_complexity`. -/
def hazmatKeywords : List String :=
  ["hazmat", "hazardous", "dangerous goods", "flammable", "corrosive",
   "toxic", "explosive", "radioactive", "placard", "msds", "dot class",
   "un number", "un1", "un2", "un3", "class 1", "class 2", "class 3",
   "class 4", "class 5", "class 6", "class 7", "class 8", "class 9"]

/-- Hazmat regex patterns (`un\d{4}`, `dot-\d+`, `class \d`,
`hazmat \d+`, `placard.*required`, `dangerous.*goods`,
`flammable.*liquid`). -/
def hazmatPats : List (List Tok) :=
  [lits "un" ++ [.digit, .digit, .digit, .digit],
   lits "dot-" ++ [.digitPlus],
   lits "class " ++ [.digit],
   lits "hazmat " ++ [.digitPlus],
   lits "placard" ++ [.dotStar] ++ lits "required",
   lits "dangerous" ++ [.dotStar] ++ lits "goods",
   lits "flammable" ++ [.dotStar] ++ lits "liquid"]

/-- Oversize keyword set. -/
def oversizeKeywords : List String :=
  ["oversize", "overweight", "over dimensional", "wide load", "permit",
   "escort", "pilot car", "oversized", "heavy haul", "over width",
   "over length", "over height", "superload", "wide", "long", "tall"]

/-- Oversize regex patterns (`width.*\d+.*ft`, `length.*\d+.*ft`,
`height.*\d+.*ft`, `weight.*\d+.*lbs`, `\d+.*feet.*wide`,
`\d+.*feet.*long`, `\d+.*feet.*tall`, `\d+.*tons?`). -/
def oversizePats : List (List Tok) :=
  [lits "width" ++ [.dotStar, .digitPlus, .dotStar] ++ lits "ft",
   lits "length" ++ [.dotStar, .digitPlus, .dotStar] ++ lits "ft",
   lits "height" ++ [.dotStar, .digitPlus, .dotStar] ++ lits "ft",
   lits "weight" ++ [.dotStar, .digitPlus, .dotStar] ++ lits "lbs",
   [.digitPlus, .dotStar] ++ lits "feet" ++ [.dotStar] ++ lits "wide",
   [.digitPlus, .dotStar] ++ lits "feet" ++ [.dotStar] ++ lits "long",
   [.digitPlus, .dotStar] ++ lits "feet" ++ [.dotStar] ++ lits "tall",
   [.digitPlus, .dotStar] ++ lits "ton" ++ [.optChar 's']]

/-- Multi-stop keyword set. -/
def multistopKeywords : List String :=
  ["multiple stops", "multi stop", "several deliveries", "first pickup",
   "second pickup", "then deliver", "then go to", "multiple locations",
   "stop 1", "stop 2", "pickup 1", "pickup 2", "delivery 1", "delivery 2"]

/-- Multi-stop regex patterns (`then.*deliver`, `first.*pickup`,
`second.*delivery`, `stop.*\d+`, `pickup.*\d+`, `delivery.*\d+`). -/
def multistopPats : List (List Tok) :=
  [lits "then" ++ [.dotStar] ++ lits "deliver",
   lits "first" ++ [.dotStar] ++ lits "pickup",
   lits "second" ++ [.dotStar] ++ lits "delivery",
   lits "stop" ++ [.dotStar, .digitPlus],
   lits "pickup" ++ [.dotStar, .digitPlus],
   lits "delivery" ++ [.dotStar, .digitPlus]]

/-- Intermodal keyword set. -/
def intermodalKeywords : List String :=
  ["intermodal", "rail", "container", "tofc", "cofc", "ramp",
   "bnsf", "union pacific", "csx", "norfolk southern", "rail yard",
   "chassis", "drayage", "port", "terminal"]

/-- Intermodal regex patterns (`rail.*yard`, `container.*\d+`, `tofc`,
`cofc`, `rail.*terminal`, `intermodal.*facility`). -/
def intermodalPats : List (List Tok) :=
  [lits "rail" ++ [.dotStar] ++ lits "yard",
   lits "container" ++ [.dotStar, .digitPlus],
   lits "tofc",
   lits "cofc",
   lits "rail" ++ [.dotStar] ++ lits "terminal",
   lits "intermodal" ++ [.dotStar] ++ lits "facility"]

/-- LTL keyword set. -/
def ltlKeywords : List String :=
  ["ltl", "less than truckload", "partial load", "consolidate",
   "shared truck", "small shipment", "few pallets"]

/-- LTL regex patterns (`ltl`, `\d+.*pallets?.*only`, `partial.*truck`,
`small.*shipment`, `few.*pallets`). -/
def ltlPats : List (List Tok) :=
  [lits "ltl",
   [.digitPlus, .dotStar] ++ lits "pallet" ++ [.optChar 's', .dotStar] ++ lits "only",
   lits "partial" ++ [.dotStar] ++ lits "truck",
   lits "small" ++ [.dotStar] ++ lits "shipment",
   lits "few" ++ [.dotStar] ++ lits "pallets"]

/-- Partial-load keyword set. -/
def partKeywords : List String :=
  ["partial", "partial truck", "shared load", "partial capacity",
   "not full truck", "half truck", "room for more"]

/-- Partial-load regex patterns (`partial.*truck`, `shared.*load`,
`half.*capacity`, `not.*full.*truck`, `room.*for.*more`). -/
def partPats : List (List Tok) :=
  [lits "partial" ++ [.dotStar] ++ lits "truck",
   lits "shared" ++ [.dotStar] ++ lits "load",
   lits "half" ++ [.dotStar] ++ lits "capacity",
   lits "not" ++ [.dotStar] ++ lits "full" ++ [.dotStar] ++ lits "truck",
   lits "room" ++ [.dotStar] ++ lits "for" ++ [.dotStar] ++ lits "more"]

/-- Specialized-flatbed keyword set. -/
def flatbedKeywords : List String :=
  ["flatbed", "stepdeck", "lowboy", "rgn", "double drop", "machinery",
   "construction", "steel", "lumber", "coils", "pipes", "equipment",
   "tarps", "chains", "securement", "tie downs"]

/-- Flatbed regex patterns (`flatbed`, `stepdeck`, `lowboy`, `rgn`,
`double.*drop`, `tie.*down`, `securement`, `tarps?`, `chains?`). -/
def flatbedPats : List (List Tok) :=
  [lits "flatbed",
   lits "stepdeck",
   lits "lowboy",
   lits "rgn",
   lits "double" ++ [.dotStar] ++ lits "drop",
   lits "tie" ++ [.dotStar] ++ lits "down",
   lits "securement",
   lits "tarp" ++ [.optChar 's'],
   lits "chain" ++ [.optChar 's']]

/-- `weight_lb > 80000 if isinstance(weight_lb, int) else False`. -/
def overweightThreshold (d : Dict) : Bool :=
  let w := dictGetD d "weight_lb" (.int 0)
  pyIsIntLike w && pyIntVal w > 80000

/-- `weight_lb < 10000 if isinstance(weight_lb, int) and weight_lb > 0
else False`. -/
def ltlWeightThreshold (d : Dict) : Bool :=
  let w := dictGetD d "weight_lb" (.int 0)
  pyIsIntLike w && pyIntVal w > 0 && pyIntVal w < 10000

/-- `pieces < 10 if isinstance(pieces, int) and pieces > 0 else False`. -/
def ltlPieceThreshold (d : Dict) : Bool :=
  let p := dictGetD d "pieces" (.int 0)
  pyIsIntLike p && pyIntVal p > 0 && pyIntVal p < 10

/-- `weight_lb < 20000 if isinstance(weight_lb, int) and weight_lb > 0
else False`. -/
def partWeightThreshold (d : Dict) : Bool :=
  let w := dictGetD d "weight_lb" (.int 0)
  pyIsIntLike w && pyIntVal w > 0 && pyIntVal w < 20000

/-- HAZMAT detector condition: keywords, patterns, or extracted flag. -/
def hazCond (tl : String) (d : Dict) : Bool :=
  !(detectedKws hazmatKeywords tl).isEmpty ||
  !(firedPats hazmatPats tl).isEmpty ||
  pyTruthy (dictGetD d "hazmat" (.bool false))

/-- OVERSIZE detector condition: keywords, patterns, or the 80,000 lb
threshold. -/
def ovCond (tl : String) (d : Dict) : Bool :=
  !(detectedKws oversizeKeywords tl).isEmpty ||
  !(firedPats oversizePats tl).isEmpty ||
  overweightThreshold d

/-- MULTI_STOP detector condition: keywords, patterns, or more than two
distinct zip-code tokens in the raw (unlowered) text. -/
def msCond (rawText tl : String) : Bool :=
  !(detectedKws multistopKeywords tl).isEmpty ||
  !(firedPats multistopPats tl).isEmpty ||
  (zipCodes rawText).dedup.length > 2

/-- INTERMODAL detector condition. -/
def imCond (tl : String) : Bool :=
  !(detectedKws intermodalKeywords tl).isEmpty ||
  !(firedPats intermodalPats tl).isEmpty

/-- LTL detector condition: keywords, patterns, the low-weight
threshold, or the low-piece-count threshold. -/
def ltlCond (tl : String) (d : Dict) : Bool :=
  !(detectedKws ltlKeywords tl).isEmpty ||
  !(firedPats ltlPats tl).isEmpty ||
  ltlWeightThreshold d ||
  ltlPieceThreshold d

/-- PARTIAL detector condition: keywords, patterns, or the
under-20,000 lb threshold. -/
def partCond (tl : String) (d : Dict) : Bool :=
  !(detectedKws partKeywords tl).isEmpty ||
  !(firedPats partPats tl).isEmpty ||
  partWeightThreshold d

/-- The lowered equipment string of the extraction
(`load_data.get('equipment', '').lower()`); a non-string value raises
in Python and is outside the modelled domain, rendered here as `""`. -/
def equipLower (d : Dict) : String :=
  match dictGetD d "equipment" (.str "") with
  | .str s => lowerAscii s
  | _ => ""

/-- FLATBED detector condition: keywords, patterns, or a specialized
equipment category from the extraction. -/
def fbCond (tl : String) (d : Dict) : Bool :=
  !(detectedKws flatbedKeywords tl).isEmpty ||
  !(firedPats flatbedPats tl).isEmpty ||
  (equipLower d ∈ ["flatbed", "stepdeck", "lowboy", "rgn", "double drop"])

/-- The flag contributed by one detector (`complexity_flags.append`). -/
def flagSeg (c : Bool) (name : String) : List String :=
  if c then [name] else []

/-- The rationale fragment contributed by one detector
(`analysis_parts.append`). -/
def annSeg (c : Bool) (txt : String) : List String :=
  if c then [txt] else []

/-- Display of a detected-keyword list inside a rationale fragment. -/
def showList (xs : List String) : String :=
  "[" ++ String.intercalate ", " xs ++ "]"

/-- Display of a fired-pattern list inside a rationale fragment.  The
source shows the substrings `re.findall` matched; the model shows the
literal characters of each firing pattern instead (the rationale text
is audit output and no property depends on its exact content). -/
def showPats (ps : List (List Tok)) : String :=
  "[" ++ String.intercalate ", "
    (ps.map (fun p => String.mk (p.filterMap (fun t =>
      match t with
      | .lit c => some c
      | _ => Option.none)))) ++ "]"

/-- `detect_freight_complexity(raw_text, load_data)` from
`intake_graph.py`: the rule-based complexity classifier.  Returns the
flag list (appended in the source's fixed detector order) and the
human-readable analysis string. -/
def detect_freight_complexity (raw_text : String) (load_data : Dict) :
    List String × String :=
  let tl := lowerAscii raw_text
  let flags :=
    flagSeg (hazCond tl load_data) "HAZMAT" ++
    flagSeg (ovCond tl load_data) "OVERSIZE" ++
    flagSeg (msCond raw_text tl) "MULTI_STOP" ++
    flagSeg (imCond tl) "INTERMODAL" ++
    flagSeg (ltlCond tl load_data) "LTL" ++
    flagSeg (partCond tl load_data) "PARTIAL" ++
    flagSeg (fbCond tl load_data) "FLATBED"
  let parts :=
    annSeg (hazCond tl load_data)
      ("HAZMAT detected: keywords=" ++ showList (detectedKws hazmatKeywords tl) ++
       ", patterns=" ++ showPats (firedPats hazmatPats tl) ++
       ", extracted_flag=" ++ pyRepr (dictGetD load_data "hazmat" (.bool false))) ++
    annSeg (ovCond tl load_data)
      ("OVERSIZE detected: keywords=" ++ showList (detectedKws oversizeKeywords tl) ++
       ", patterns=" ++ showPats (firedPats oversizePats tl) ++
       ", weight=" ++ pyRepr (dictGetD load_data "weight_lb" (.int 0))) ++
    annSeg (msCond raw_text tl)
      ("MULTI_STOP detected: keywords=" ++ showList (detectedKws multistopKeywords tl) ++
       ", patterns=" ++ showPats (firedPats multistopPats tl) ++
       ", zip_codes=" ++ toString (zipCodes raw_text).dedup.length) ++
    annSeg (imCond tl)
      ("INTERMODAL detected: keywords=" ++ showList (detectedKws intermodalKeywords tl) ++
       ", patterns=" ++ showPats (firedPats intermodalPats tl)) ++
    annSeg (ltlCond tl load_data)
      ("LTL detected: keywords=" ++ showList (detectedKws ltlKeywords tl) ++
       ", patterns=" ++ showPats (firedPats ltlPats tl) ++
       ", weight=" ++ pyRepr (dictGetD load_data "weight_lb" (.int 0)) ++
       ", pieces=" ++ pyRepr (dictGetD load_data "pieces" (.int 0))) ++
    annSeg (partCond tl load_data)
      ("PARTIAL detected: keywords=" ++ showList (detectedKws partKeywords tl) ++
       ", patterns=" ++ showPats (firedPats partPats tl) ++
       ", weight=" ++ pyRepr (dictGetD load_data "weight_lb" (.int 0))) ++
    annSeg (fbCond tl load_data)
      ("FLATBED detected: keywords=" ++ showList (detectedKws flatbedKeywords tl) ++
       ", patterns=" ++ showPats (firedPats flatbedPats tl) ++
       ", equipment=" ++ equipLower load_data)
  let analysis :=
    if !flags.isEmpty then
      "Complex freight detected with " ++ toString flags.length ++
      " complexity types: " ++ String.intercalate ", " flags ++ ". " ++
      String.intercalate "; " parts
    else
      "Simple freight load suitable for automation. No complexity flags detected."
  (flags, analysis)

/-- `route_after_classify`: `"ask_more" if state["missing"] else "ack"`. -/
def route_after_classify (missing : List String) : String :=
  if !missing.isEmpty then "ask_more" else "ack"

/-- One entry of a load's `email_conversation` audit log. -/
structure ConvEvent where
  timestamp : String
  direction : String
  message_id : String
  /-- The entry's `type` key (`missing_info_request`, `initial_tender`,
  `missing_info_provided`). -/
  eventType : String
  /-- `fields_requested` / `fields_provided`, when the entry has one. -/
  fields : List String := []
  subject : String := ""
  deriving DecidableEq, Repr

/-- A row of the `loads` table, restricted to the columns the verified
operations read or write.  The five required-field columns live in
`fields` (a `Dict`, matching how the Python code reads them back with
`row.get(field)`); the metadata columns are structure fields. -/
structure LoadRec where
  id : String
  load_number : String
  shipper_email : String
  /-- `created_at`, as an abstract monotone stamp (the resolver only
  compares these for its most-recent-first ordering). -/
  created_at : Int
  is_complete : Bool
  missing_fields : List String
  fields : Dict
  /-- `follow_up_count`; kept as `PyVal` since the code reads it back
  with `.get("follow_up_count", 0)`. -/
  follow_up_count : PyVal := PyVal.none
  email_conversation : List ConvEvent := []
  latest_message_id : String := ""
  original_message_id : String := ""
  thread_id : String := ""
  updated_at : String := ""
  complexity_flags : List String := []
  complexity_analysis : String := ""
  requires_human_review : Bool := false
  deriving DecidableEq, Repr

/-- `save_incomplete_load` (`intake_graph.py`): the row written for an
incomplete load.  `id`, `load_number` and `created_at` are assigned by
the record store (`fn_create_load`) and passed in here. -/
def save_incomplete_load (load_data : Dict) (missing : List String)
    (email_from email_message_id thread_id request_message_id now : String)
    (id load_number : String) (created_at : Int) : LoadRec :=
  { id := id
    load_number := load_number
    shipper_email := email_from
    created_at := created_at
    is_complete := false
    missing_fields := missing
    fields := load_data
    follow_up_count := PyVal.int 1
    email_conversation :=
      [{ timestamp := now, direction := "outbound",
         message_id := request_message_id,
         eventType := "missing_info_request", fields := missing }]
    latest_message_id := request_message_id
    original_message_id := email_message_id
    thread_id := thread_id }

/-- `ack` (`intake_graph.py`): the row written for a complete load
(`is_complete = True`, `missing_fields = []`).  Reached only when
`route_after_classify` saw no missing fields. -/
def ackLoad (load_data : Dict) (email_message_id email_subject thread_id now : String)
    (id load_number : String) (created_at : Int) (shipper_email : String) : LoadRec :=
  { id := id
    load_number := load_number
    shipper_email := shipper_email
    created_at := created_at
    is_complete := true
    missing_fields := []
    fields := load_data
    email_conversation :=
      [{ timestamp := now, direction := "inbound",
         message_id := email_message_id,
         eventType := "initial_tender", subject := email_subject }]
    latest_message_id := email_message_id
    original_message_id := email_message_id
    thread_id := thread_id }

/-- `updated_fields.get(f)` for the merge in `update_incomplete_load`:
the value from `new_data` when the field is required and non-null,
otherwise `None` (the source builds `updated_fields` by filtering
`new_data` down to non-null required fields). -/
def updatedFieldsGet (n : Dict) (f : String) : PyVal :=
  if f ∈ REQUIRED then dictGet n f else PyVal.none

/-- The keys of `updated_fields`: required fields with a non-null new
value. -/
def updKeys (n : Dict) : List String :=
  REQUIRED.filter (fun f => !(updatedFieldsGet n f == PyVal.none))

/-- `all_fields_present`: every required field is non-null in the
current row or in the update. -/
def allFieldsPresent (cur : Dict) (n : Dict) : Bool :=
  REQUIRED.all (fun f =>
    !(dictGet cur f == PyVal.none) || !(updatedFieldsGet n f == PyVal.none))

/-- `still_missing`: required fields null in both the current row and
the update. -/
def stillMissing (cur : Dict) (n : Dict) : List String :=
  REQUIRED.filter (fun f =>
    dictGet cur f == PyVal.none && updatedFieldsGet n f == PyVal.none)

/-- Applying `updated_fields` to the row's field columns
(`supabase...update(update_data)` restricted to the required-field
columns). -/
def mergeUpdated (cur : Dict) (n : Dict) : Dict :=
  (updKeys n).foldl (fun d f => dictUpsert d f (updatedFieldsGet n f)) cur

/-- `update_incomplete_load` (`handle_missing_info_response.py`).

When `all_fields_present` holds, the source (line 285) calls
`detect_freight_complexity(load_text)` with a single argument; the
function (defined in `intake_graph.py` line 201) requires two, so
Python raises `TypeError`, the handler's `except` (line 334) catches
it, and `(False, {"error": ...})` is returned with no database write.
The model returns that failure as `Except.error`.

Otherwise the row is updated with the merged fields, the recomputed
missing set, `is_complete`, an incremented `follow_up_count` and the
appended conversation entry, and returned as `Except.ok`. -/
def update_incomplete_load (cur : LoadRec) (new_data : Dict)
    (email_message_id now : String) : Except String LoadRec :=
  if allFieldsPresent cur.fields new_data then
    Except.error
      "TypeError: detect_freight_complexity() missing 1 required positional argument: load_data"
  else
    Except.ok { cur with
      fields := mergeUpdated cur.fields new_data
      latest_message_id := email_message_id
      updated_at := now
      is_complete := allFieldsPresent cur.fields new_data
      follow_up_count := PyVal.int (pyIntVal cur.follow_up_count + 1)
      missing_fields := stillMissing cur.fields new_data
      email_conversation := cur.email_conversation ++
        [{ timestamp := now, direction := "inbound",
           message_id := email_message_id,
           eventType := "missing_info_provided",
           fields := new_data.map (fun p => p.1) }] }

/-- The observable effect of one follow-up merge on the stored row: the
updated row on success, the unchanged row when the update failed
(nothing was written). -/
def applyFollowUp (cur : LoadRec) (new_data : Dict)
    (email_message_id now : String) : LoadRec :=
  match update_incomplete_load cur new_data email_message_id now with
  | Except.ok l => l
  | Except.error _ => cur

/-- Stable descending insertion (an element is placed before the first
strictly-smaller key, after any earlier equal keys). -/
def insertByDesc {α : Type} (key : α → Int) (x : α) : List α → List α
  | [] => [x]
  | y :: ys => if key y ≤ key x then x :: y :: ys else y :: insertByDesc key x ys

/-- Stable sort, descending by `key`: the model of Python's stable
`list.sort(..., reverse=True)` and of the record store's
`order(..., desc=True)`. -/
def sortByDesc {α : Type} (key : α → Int) : List α → List α
  | [] => []
  | x :: xs => insertByDesc key x (sortByDesc key xs)

/-- The subject-matching test of the resolver's disambiguation loop:
`if load_number and load_number in subject`. -/
def loadNumberInSubject (l : LoadRec) (subject : String) : Bool :=
  !(l.load_number == "") && strContains subject l.load_number

/-- The candidate window the sender-based resolver inspects: the
sender's incomplete loads (`...eq("shipper_email", ...)
.eq("is_complete", False)`), most recent first
(`order("created_at", desc=True)`), limited to 5 (`limit(5)`). -/
def resolverWindow (db : List LoadRec) (shipper_email : String) : List LoadRec :=
  (sortByDesc (fun l => l.created_at)
    (db.filter (fun l => l.shipper_email == shipper_email && !l.is_complete))).take 5

/-- `find_incomplete_load_by_email` (`handle_missing_info_response.py`):
over the resolver window, none → not found; exactly one → it; several →
the first whose load number occurs in the subject, else the most
recent. -/
def find_incomplete_load_by_email (db : List LoadRec)
    (shipper_email subject : String) : Option LoadRec :=
  match resolverWindow db shipper_email with
  | [] => Option.none
  | [l] => some l
  | l0 :: l1 :: rest =>
      match (l0 :: l1 :: rest).find? (fun l => loadNumberInSubject l subject) with
      | some l => some l
      | Option.none => some l0

/-- Parsed `last_active_date` of a carrier: the whole-day difference
`(now - last_active).days` the source computes, or the unparseable case
(its `except` branch). -/
inductive LastActive where
  | parsed (daysInactive : Int)
  | unparseable
  deriving DecidableEq, Repr

/-- A row of the `carriers` table as read by the scorer
(`_get_active_carriers` already filtered on `status = 'active'`).
Percentages/ratios are in per-mille (`0.95 ↦ 950`); `Option.none`
models an absent column, so `.get(k, default)` is `Option.getD`. -/
structure Carrier where
  id : String
  name : String
  email : String
  preferred_lanes : List String := []
  coverage_areas : List String := []
  operating_area : Option String := Option.none
  equipment_types : List String := []
  on_time_pct : Option Int := Option.none
  claims_ratio : Option Int := Option.none
  safety_rating : Option String := Option.none
  typical_margin_pct : Option Int := Option.none
  last_active_date : Option LastActive := Option.none
  deriving DecidableEq, Repr

/-- The load fields `match_carriers_for_load` consumes. -/
structure ScoringLoad where
  origin_zip : Option String := Option.none
  dest_zip : Option String := Option.none
  equipment : Option String := Option.none
  deriving DecidableEq, Repr

/-- Python `f"{x}"` of a value that may be `None`. -/
def strOfOpt : Option String → String
  | some s => s
  | Option.none => "None"

/-- The zip-prefix→state table of `_get_state_from_zip`. -/
def zipPrefixMap : List (String × String) :=
  [("750", "TX"), ("751", "TX"), ("752", "TX"),
   ("300", "GA"), ("301", "GA"), ("303", "GA"),
   ("331", "FL"), ("332", "FL"), ("333", "FL"),
   ("100", "NY"), ("101", "NY"), ("102", "NY"),
   ("900", "CA"), ("901", "CA"), ("902", "CA"),
   ("600", "IL"), ("601", "IL"), ("602", "IL")]

/-- `_get_state_from_zip`: `None` for a missing/short zip, else the
3-character-prefix table lookup. -/
def getStateFromZip (zip : Option String) : Option String :=
  match zip with
  | Option.none => Option.none
  | some z =>
      if z.length < 3 then Option.none
      else
        match zipPrefixMap.find? (fun p => p.1 == String.mk (z.toList.take 3)) with
        | some p => some p.2
        | Option.none => Option.none

/-- The tail of `_calculate_lane_score` after lane-list checks:
coverage area, then national scope, then zero. -/
def laneTail (c : Carrier) (origin_state : Option String) : Int × List String :=
  let inCoverage : Bool :=
    match origin_state with
    | some os => os ∈ c.coverage_areas
    | Option.none => false
  if inCoverage then
    (15, ["Services origin state: " ++ strOfOpt origin_state])
  else if c.operating_area = some "national" then
    (10, ["National carrier"])
  else
    (0, ["No specific lane coverage"])

/-- `_calculate_lane_score` (0–30): exact `origin-dest` lane in
`preferred_lanes` → 30; a `state-state` pair occurring inside some
preferred lane → 20; else the coverage/national tail. -/
def calcLaneScore (c : Carrier) (load : ScoringLoad) : Int × List String :=
  let exact_lane := strOfOpt load.origin_zip ++ "-" ++ strOfOpt load.dest_zip
  if exact_lane ∈ c.preferred_lanes then
    (30, ["Exact lane match: " ++ exact_lane])
  else
    let origin_state := getStateFromZip load.origin_zip
    let dest_state := getStateFromZip load.dest_zip
    let state_lane :=
      match origin_state, dest_state with
      | some os, some ds =>
          if c.preferred_lanes.any (fun lane => strContains lane (os ++ "-" ++ ds)) then
            some (os ++ "-" ++ ds)
          else Option.none
      | _, _ => Option.none
    match state_lane with
    | some sl => (20, ["State lane match: " ++ sl])
    | Option.none => laneTail c origin_state

/-- The `compatibility_map` of `_calculate_equipment_score`. -/
def equipCompatMap : List (String × List String) :=
  [("van", ["dry van", "van"]),
   ("reefer", ["refrigerated", "reefer"]),
   ("flatbed", ["flatbed", "stepdeck", "rgn"]),
   ("stepdeck", ["stepdeck", "flatbed"])]

/-- `_calculate_equipment_score` (0–25): exact lowered match → 25;
compatibility-table match → 15; more than three categories → 10;
else 0.  A present-but-null equipment value raises in Python
(`None.lower()`) and is outside the modelled domain. -/
def calcEquipScore (c : Carrier) (load : ScoringLoad) : Int × List String :=
  let required := lowerAscii (load.equipment.getD "Van")
  let ce := c.equipment_types.map lowerAscii
  if required ∈ ce then
    (25, ["Has required equipment: " ++ required])
  else
    let compat :=
      match equipCompatMap.find? (fun p => p.1 == required) with
      | some p => p.2
      | Option.none => []
    if compat.any (fun eq => eq ∈ ce) then
      (15, ["Has compatible equipment"])
    else if ce.length > 3 then
      (10, ["Multi-equipment carrier"])
    else
      (0, ["No equipment match"])

/-- `_calculate_performance_score` (0–20): on-time bands
(≥ 950‰ → 10, ≥ 900‰ → 7, ≥ 850‰ → 5), claims bands
(≤ 10‰ → 5, ≤ 20‰ → 3, ≤ 50‰ → 1), safety category
(excellent → 5, satisfactory → 3).  Defaults: 850‰, 20‰,
"satisfactory".  The source's percent formatting in the notes is
abstracted to the per-mille number. -/
def calcPerfScore (c : Carrier) : Int × List String :=
  let on_time := c.on_time_pct.getD 850
  let claims := c.claims_ratio.getD 20
  let safety := c.safety_rating.getD "satisfactory"
  let p1 : Int × List String :=
    if on_time ≥ 950 then (10, ["Excellent on-time: " ++ toString on_time])
    else if on_time ≥ 900 then (7, ["Good on-time: " ++ toString on_time])
    else if on_time ≥ 850 then (5, ["Average on-time: " ++ toString on_time])
    else (0, ["Poor on-time: " ++ toString on_time])
  let p2 : Int × List String :=
    if claims ≤ 10 then (5, ["Excellent claims history"])
    else if claims ≤ 20 then (3, ["Good claims history"])
    else if claims ≤ 50 then (1, ["Average claims history"])
    else (0, ["High claims ratio: " ++ toString claims])
  let p3 : Int × List String :=
    if safety == "excellent" then (5, ["Excellent safety rating"])
    else if safety == "satisfactory" then (3, ["Satisfactory safety rating"])
    else (0, ["Poor safety rating: " ++ safety])
  (p1.1 + p2.1 + p3.1, p1.2 ++ p2.2 ++ p3.2)

/-- `_calculate_price_score` (0–15): margin bands
(≤ 100‰ → 15, ≤ 150‰ → 10, ≤ 200‰ → 5, else 0); default 150‰. -/
def calcPriceScore (c : Carrier) : Int × List String :=
  let m := c.typical_margin_pct.getD 150
  if m ≤ 100 then (15, ["Very competitive pricing"])
  else if m ≤ 150 then (10, ["Competitive pricing"])
  else if m ≤ 200 then (5, ["Average pricing"])
  else (0, ["Premium pricing"])

/-- `_calculate_availability_score` (0–10): days-inactive bands
(≤ 1 → 10, ≤ 7 → 7, ≤ 30 → 3, else 0); missing data → 5, unparseable
date → 5. -/
def calcAvailScore (c : Carrier) : Int × List String :=
  match c.last_active_date with
  | Option.none => (5, ["No activity data"])
  | some LastActive.unparseable => (5, ["Unknown activity"])
  | some (LastActive.parsed d) =>
      if d ≤ 1 then (10, ["Recently active"])
      else if d ≤ 7 then (7, ["Active " ++ toString d ++ " days ago"])
      else if d ≤ 30 then (3, ["Active " ++ toString d ++ " days ago"])
      else (0, ["Inactive for " ++ toString d ++ " days"])

/-- The `CarrierScore` dataclass (scores are integer-valued floats in
the source, represented as `Int`). -/
structure CarrierScore where
  carrier_id : String
  carrier_name : String
  carrier_email : String
  total_score : Int
  lane_score : Int
  equipment_score : Int
  performance_score : Int
  price_score : Int
  availability_score : Int
  notes : List String
  deriving DecidableEq, Repr

/-- `_score_carrier`: the five sub-scores, their sum, and the notes in
computation order. -/
def score_carrier (c : Carrier) (load : ScoringLoad) : CarrierScore :=
  let lane := calcLaneScore c load
  let equip := calcEquipScore c load
  let perf := calcPerfScore c
  let price := calcPriceScore c
  let avail := calcAvailScore c
  { carrier_id := c.id
    carrier_name := c.name
    carrier_email := c.email
    total_score := lane.1 + equip.1 + perf.1 + price.1 + avail.1
    lane_score := lane.1
    equipment_score := equip.1
    performance_score := perf.1
    price_score := price.1
    availability_score := avail.1
    notes := lane.2 ++ equip.2 ++ perf.2 ++ price.2 ++ avail.2 }

/-- `match_carriers_for_load`, over the active-carrier roster the store
returned: score every carrier, keep the viable ones
(`total_score > 0`), sort by total score descending (Python's
`list.sort` is stable, hence `sortByDesc`). -/
def match_carriers_for_load (carriers : List Carrier) (load : ScoringLoad) :
    List CarrierScore :=
  sortByDesc (fun s => s.total_score)
    ((carriers.map (fun c => score_carrier c load)).filter
      (fun s => decide (0 < s.total_score)))

/-- A carrier row as consumed by `send_carrier_emails`
(`loadblast/graph.py`). -/
structure CarrierRow where
  id : String
  carrier_name : String
  contact_name : Option String := Option.none
  contact_email : String := ""
  deriving DecidableEq, Repr

/-- A row of the `load_blasts` table — the `DispatchAttempt` record. -/
structure BlastRecord where
  load_id : String
  carrier_id : Option String
  blast_type : String
  blast_status : String
  message_content : Option String := Option.none
  error_message : Option String := Option.none
  sent_at : Option String := Option.none
  deriving DecidableEq, Repr

/-- `record_blast_activity`: inserts one row into `load_blasts`
(`sent_at` only for `SENT`). -/
def record_blast_activity (table : List BlastRecord) (load_id : String)
    (carrier_id : Option String) (blast_type blast_status : String)
    (message_content error_message : Option String) (now : String) :
    List BlastRecord :=
  table ++ [{ load_id := load_id, carrier_id := carrier_id,
              blast_type := blast_type, blast_status := blast_status,
              message_content := message_content,
              error_message := error_message,
              sent_at := if blast_status == "SENT" then some now else Option.none }]

/-- `send_carrier_emails`: for each selected carrier, in order, send the
personalized email and record exactly one blast row — `SENT` on
delivery success, `FAILED` on an exception (`sendErr c.id = some e`
models the exception text of a failed `resend` call).  The function
performs no lookup of existing rows: nothing about prior `SENT` or
`DELIVERED` attempts is consulted. -/
def send_carrier_emails (sendErr : String → Option String)
    (load_id email_body : String) : List CarrierRow → String →
    List BlastRecord → List BlastRecord
  | [], _, table => table
  | c :: cs, now, table =>
      let personalized_body :=
        "Hello " ++
        (match c.contact_name with
         | some n => if n == "" then "Team" else n
         | Option.none => "Team") ++
        ",\n\n" ++ email_body
      let table' :=
        match sendErr c.id with
        | Option.none =>
            record_blast_activity table load_id (some c.id) "EMAIL" "SENT"
              (some personalized_body) Option.none now
        | some e =>
            record_blast_activity table load_id (some c.id) "EMAIL" "FAILED"
              Option.none (some e) now
      send_carrier_emails sendErr load_id email_body cs now table'

/-- Count of dispatch-attempt rows for one (load, carrier) pair whose
status is in the given set. -/
def attemptCount (table : List BlastRecord) (load_id carrier_id : String)
    (statuses : List String) : Nat :=
  table.countP (fun r =>
    r.load_id == load_id && r.carrier_id == some carrier_id &&
    statuses.contains r.blast_status)

/-- The completeness invariant of §3 of the spec: `is_complete` holds
exactly when the missing-field set is empty. -/
def completenessInv (l : LoadRec) : Prop :=
  l.is_complete = true ↔ l.missing_fields = []

/-- The full `DispatchAttempt` status set; counting over it counts
every attempt row of a (load, carrier) pair. -/
def allStatuses : List String := ["PENDING", "SENT", "FAILED", "DELIVERED"]

/-- Test fixture: partial extraction of the `test_missing_info_workflow`
scenario — origin, pickup date and equipment known, destination zip
and weight missing. -/
def fxLoadData : Dict :=
  [("origin_zip", PyVal.str "75201"),
   ("pickup_dt", PyVal.str "2025-07-22T08:00:00"),
   ("equipment", PyVal.str "Dry Van")]

/-- Test fixture: the incomplete load created for that scenario. -/
def fxIncompleteLoad : LoadRec :=
  save_incomplete_load fxLoadData ["dest_zip", "weight_lb"]
    "test_shipper@example.com" "<orig@example.com>" "thread-1"
    "<req@ai-broker.example>" "2025-07-20T09:00:00" "load-1" "LD-100" 1

/-- Test fixture: a follow-up extraction supplying both missing fields. -/
def fxBothFields : Dict :=
  [("dest_zip", PyVal.str "30303"), ("weight_lb", PyVal.int 25000)]

/-- Test fixture: a follow-up extraction supplying only the destination
zip. -/
def fxOneField : Dict := [("dest_zip", PyVal.str "30303")]

/-- Test fixture: a national van carrier (used for score ties). -/
def fxTieA : Carrier :=
  { id := "a1"
    name := "Alpha Freight"
    email := "dispatch@alpha.example"
    operating_area := some "national"
    equipment_types := ["van"] }

/-- Test fixture: a second national van carrier, identical in every
scored attribute to `fxTieA` but with a different identifier. -/
def fxTieB : Carrier :=
  { id := "b2"
    name := "Bravo Freight"
    email := "dispatch@bravo.example"
    operating_area := some "national"
    equipment_types := ["van"] }

/-- Test fixture: the carrier scoring the maximum on every factor for
`fxC6Load` (exact lane, exact equipment, 97% on-time, 0.5% claims,
excellent safety, 8% margin, active within a day). -/
def fxMaxCarrier : Carrier :=
  { id := "c-max"
    name := "Best Carrier"
    email := "best@carrier.example"
    preferred_lanes := ["75001-30301"]
    equipment_types := ["Van"]
    on_time_pct := some 970
    claims_ratio := some 5
    safety_rating := some "excellent"
    typical_margin_pct := some 80
    last_active_date := some (LastActive.parsed 1) }

/-- Test fixture: the load `fxMaxCarrier` is scored against. -/
def fxC6Load : ScoringLoad :=
  { origin_zip := some "75001"
    dest_zip := some "30301"
    equipment := some "Van" }

/-- Test fixture: an incomplete load of sender `s@x.example` with the
given creation stamp and load number. -/
def fxSenderLoad (stamp : Int) (num : String) : LoadRec :=
  { id := "id-" ++ num
    load_number := num
    shipper_email := "s@x.example"
    created_at := stamp
    is_complete := false
    missing_fields := ["weight_lb"]
    fields := [] }

/-- Test fixture: six incomplete loads of one sender; only the oldest
(`LD-42`) has its load number in the follow-up subject. -/
def fxDbSix : List LoadRec :=
  [fxSenderLoad 6 "LD-47", fxSenderLoad 5 "LD-46", fxSenderLoad 4 "LD-45",
   fxSenderLoad 3 "LD-44", fxSenderLoad 2 "LD-43", fxSenderLoad 1 "LD-42"]

/-- Test fixture: two incomplete loads of one sender; the older one is
`LD-42` (the spec's resolver scenario). -/
def fxDbTwo : List LoadRec :=
  [fxSenderLoad 2 "LD-43", fxSenderLoad 1 "LD-42"]

/-- Test fixture: one carrier row for the dispatch recorder. -/
def fxCarrierRow : CarrierRow :=
  { id := "car-1"
    carrier_name := "Acme Trucking"
    contact_name := some "Pat"
    contact_email := "ops@acme.example" }

/-- Test fixture: a delivery collaborator that always succeeds. -/
def fxAllOk : String → Option String := fun _ => Option.none

/-! ### Helper lemmas -/

theorem mem_flagSeg {x n : String} {c : Bool} : x ∈ flagSeg c n ↔ c = true ∧ x = n := by
  unfold flagSeg; split <;> simp_all

theorem detect_fst (t : String) (d : Dict) :
    (detect_freight_complexity t d).1 =
      flagSeg (hazCond (lowerAscii t) d) "HAZMAT" ++
      flagSeg (ovCond (lowerAscii t) d) "OVERSIZE" ++
      flagSeg (msCond t (lowerAscii t)) "MULTI_STOP" ++
      flagSeg (imCond (lowerAscii t)) "INTERMODAL" ++
      flagSeg (ltlCond (lowerAscii t) d) "LTL" ++
      flagSeg (partCond (lowerAscii t) d) "PARTIAL" ++
      flagSeg (fbCond (lowerAscii t) d) "FLATBED" := rfl

theorem ov_of_threshold (t : String) (d : Dict) (h : overweightThreshold d = true) :
    "OVERSIZE" ∈ (detect_freight_complexity t d).1 := by
  rw [detect_fst]
  have hc : ovCond (lowerAscii t) d = true := by simp [ovCond, h]
  simp [List.mem_append, mem_flagSeg, hc]

theorem ltl_of_threshold (t : String) (d : Dict) (h : ltlWeightThreshold d = true) :
    "LTL" ∈ (detect_freight_complexity t d).1 := by
  rw [detect_fst]
  have hc : ltlCond (lowerAscii t) d = true := by simp [ltlCond, h]
  simp [List.mem_append, mem_flagSeg, hc]

theorem find?_filter_ne (d : Dict) (k g : String) (h : g ≠ k) :
    (d.filter (fun p => !(p.1 == k))).find? (fun p => p.1 == g) = d.find? (fun p => p.1 == g) := by
  induction d with
  | nil => rfl
  | cons a d ih =>
    by_cases hak : a.1 = k
    · have h1 : (a.1 == k) = true := by simpa using hak
      have h2 : (a.1 == g) = false := by simp [hak]; exact fun hh => h hh.symm
      simp [List.filter_cons, h1, List.find?_cons, h2, ih]
    · have h1 : (a.1 == k) = false := by simpa using hak
      by_cases hag : a.1 = g
      · have h2 : (a.1 == g) = true := by simpa using hag
        simp [List.filter_cons, h1, List.find?_cons, h2]
      · have h2 : (a.1 == g) = false := by simpa using hag
        simp [List.filter_cons, h1, List.find?_cons, h2, ih]

theorem dictGet_upsert (d : Dict) (k g : String) (v : PyVal) :
    dictGet (dictUpsert d k v) g = if g = k then v else dictGet d g := by
  by_cases hgk : g = k
  · subst hgk
    simp [dictUpsert, dictGet, List.find?_cons]
  · have h2 : (k == g) = false := by simp; exact fun hh => hgk hh.symm
    simp [dictUpsert, dictGet, List.find?_cons, h2, hgk, find?_filter_ne _ _ _ hgk]

theorem dictGet_foldl_upsert (ks : List String) (v : String → PyVal) (d : Dict) (g : String) :
    dictGet (ks.foldl (fun d f => dictUpsert d f (v f)) d) g =
      if g ∈ ks then v g else dictGet d g := by
  induction ks generalizing d with
  | nil => simp
  | cons x ks ih =>
    simp only [List.foldl_cons, ih, dictGet_upsert]
    by_cases hx : g = x <;> by_cases hks : g ∈ ks <;> simp [hx, hks]

theorem mem_updKeys {n : Dict} {f : String} :
    f ∈ updKeys n ↔ f ∈ REQUIRED ∧ ¬(updatedFieldsGet n f = PyVal.none) := by
  simp [updKeys, List.mem_filter]

theorem dictGet_mergeUpdated (cur n : Dict) (f : String) :
    dictGet (mergeUpdated cur n) f =
      if updatedFieldsGet n f = PyVal.none then dictGet cur f else updatedFieldsGet n f := by
  unfold mergeUpdated
  rw [dictGet_foldl_upsert]
  by_cases hupd : updatedFieldsGet n f = PyVal.none
  · have hnm : f ∉ updKeys n := by simp [mem_updKeys, hupd]
    simp [hnm, hupd]
  · by_cases hreq : f ∈ REQUIRED
    · have hm : f ∈ updKeys n := mem_updKeys.mpr ⟨hreq, hupd⟩
      simp [hm, hupd]
    · exact absurd (by simp [updatedFieldsGet, hreq]) hupd

theorem listAll_congr {α : Type} {p q : α → Bool} :
    ∀ {l : List α}, (∀ a ∈ l, p a = q a) → l.all p = l.all q := by
  intro l; induction l with
  | nil => intro; rfl
  | cons a l ih =>
    intro h
    simp only [List.all_cons, h a (by simp), ih (fun b hb => h b (by simp [hb]))]

theorem listFilter_congr {α : Type} {p q : α → Bool} :
    ∀ {l : List α}, (∀ a ∈ l, p a = q a) → l.filter p = l.filter q := by
  intro l; induction l with
  | nil => intro; rfl
  | cons a l ih =>
    intro h
    simp only [List.filter_cons, h a (by simp), ih (fun b hb => h b (by simp [hb]))]

theorem listMap_congr {α β : Type} {p q : α → β} :
    ∀ {l : List α}, (∀ a ∈ l, p a = q a) → l.map p = l.map q := by
  intro l; induction l with
  | nil => intro; rfl
  | cons a l ih =>
    intro h
    simp only [List.map_cons, h a (by simp), ih (fun b hb => h b (by simp [hb]))]

theorem allFieldsPresent_merge (cur n : Dict) :
    allFieldsPresent (mergeUpdated cur n) n = allFieldsPresent cur n := by
  unfold allFieldsPresent
  apply listAll_congr
  intro f _
  rw [dictGet_mergeUpdated]
  by_cases hupd : updatedFieldsGet n f = PyVal.none <;> simp [hupd]

theorem stillMissing_merge (cur n : Dict) :
    stillMissing (mergeUpdated cur n) n = stillMissing cur n := by
  unfold stillMissing
  apply listFilter_congr
  intro f _
  rw [dictGet_mergeUpdated]
  by_cases hupd : updatedFieldsGet n f = PyVal.none <;> simp [hupd]

theorem stillMissing_ne_nil {cur n : Dict} (h : allFieldsPresent cur n = false) :
    stillMissing cur n ≠ [] := by
  unfold allFieldsPresent at h
  rw [List.all_eq_false] at h
  obtain ⟨f, hf, hcond⟩ := h
  have hc : (dictGet cur f == PyVal.none && updatedFieldsGet n f == PyVal.none) = true := by
    revert hcond
    cases h1 : dictGet cur f == PyVal.none <;>
      cases h2 : updatedFieldsGet n f == PyVal.none <;> simp
  exact List.ne_nil_of_mem (List.mem_filter.mpr ⟨hf, hc⟩)

theorem mem_insertByDesc {α : Type} (key : α → Int) {x z : α} {l : List α} :
    z ∈ insertByDesc key x l ↔ z = x ∨ z ∈ l := by
  induction l with
  | nil => simp [insertByDesc]
  | cons y ys ih =>
    unfold insertByDesc
    split
    · simp
    · simp only [List.mem_cons, ih]
      tauto

theorem pairwise_insertByDesc {α : Type} (key : α → Int) {x : α} {l : List α}
    (h : l.Pairwise (fun a b => key b ≤ key a)) :
    (insertByDesc key x l).Pairwise (fun a b => key b ≤ key a) := by
  induction l with
  | nil => simp [insertByDesc]
  | cons y ys ih =>
    rcases List.pairwise_cons.mp h with ⟨hy, hys⟩
    unfold insertByDesc
    split
    · rename_i hle
      refine List.pairwise_cons.mpr ⟨?_, h⟩
      intro z hz
      rcases List.mem_cons.mp hz with hz | hz
      · exact hz ▸ hle
      · exact le_trans (hy z hz) hle
    · rename_i hgt
      have hxy : key x ≤ key y := le_of_lt (not_le.mp hgt)
      refine List.pairwise_cons.mpr ⟨?_, ih hys⟩
      intro z hz
      rcases (mem_insertByDesc key).mp hz with hz | hz
      · exact hz ▸ hxy
      · exact hy z hz

theorem pairwise_sortByDesc {α : Type} (key : α → Int) (l : List α) :
    (sortByDesc key l).Pairwise (fun a b => key b ≤ key a) := by
  induction l with
  | nil => simp [sortByDesc]
  | cons x xs ih => exact pairwise_insertByDesc key ih

theorem filter_insertByDesc {α : Type} (key : α → Int) (s : Int) (x : α) (l : List α) :
    (insertByDesc key x l).filter (fun a => key a == s) =
      if key x == s then x :: l.filter (fun a => key a == s)
      else l.filter (fun a => key a == s) := by
  induction l with
  | nil => simp [insertByDesc, List.filter_cons]
  | cons y ys ih =>
    unfold insertByDesc
    split
    · simp [List.filter_cons]
    · rename_i hgt
      have hxy : key x < key y := not_le.mp hgt
      rw [List.filter_cons, ih]
      by_cases hx : key x = s
      · have hxb : (key x == s) = true := by simpa using hx
        have hyb : (key y == s) = false := by
          simp only [beq_eq_false_iff_ne, ne_eq]
          omega
        simp [hxb, hyb, List.filter_cons]
      · have hxb : (key x == s) = false := by simpa using hx
        by_cases hy : key y = s
        · have hyb : (key y == s) = true := by simpa using hy
          simp [hxb, hyb, List.filter_cons]
        · have hyb : (key y == s) = false := by simpa using hy
          simp [hxb, hyb, List.filter_cons]

theorem filter_sortByDesc {α : Type} (key : α → Int) (s : Int) (l : List α) :
    (sortByDesc key l).filter (fun a => key a == s) = l.filter (fun a => key a == s) := by
  induction l with
  | nil => simp [sortByDesc]
  | cons x xs ih =>
    show (insertByDesc key x (sortByDesc key xs)).filter _ = _
    rw [filter_insertByDesc, ih, List.filter_cons]

theorem find?_eq_of_unique {α : Type} (p : α → Bool) :
    ∀ (l : List α) (x : α), x ∈ l → p x = true →
      (∀ y ∈ l, p y = true → y = x) → l.find? p = some x := by
  intro l
  induction l with
  | nil => intro x hx; simp at hx
  | cons a l ih =>
    intro x hx hpx huniq
    by_cases ha : p a = true
    · have hax : a = x := huniq a (by simp) ha
      subst hax
      simp [List.find?_cons_of_pos _ ha]
    · have ha' : p a = false := by simpa using ha
      have hxa : x ≠ a := by
        intro hh
        rw [hh, ha'] at hpx
        exact Bool.false_ne_true hpx
      have hx' : x ∈ l := by
        rcases List.mem_cons.mp hx with hh | hh
        · exact absurd hh hxa
        · exact hh
      rw [List.find?_cons_of_neg _ (by simp [ha'])]
      exact ih x hx' hpx (fun y hy hpy => huniq y (by simp [hy]) hpy)

theorem attemptCount_record (t : List BlastRecord) (lid : String) (cid2 : Option String)
    (bt bs : String) (mc em : Option String) (now : String) (cid : String)
    (sts : List String) :
    attemptCount (record_blast_activity t lid cid2 bt bs mc em now) lid cid sts =
      attemptCount t lid cid sts +
        (if (cid2 == some cid && sts.contains bs) then 1 else 0) := by
  unfold attemptCount record_blast_activity
  rw [List.countP_append]
  simp only [List.countP_cons, List.countP_nil, Nat.zero_add, beq_self_eq_true,
    Bool.true_and]

theorem attemptCount_send (s : String → Option String) (lid body now : String)
    (cid : String) :
    ∀ (carriers : List CarrierRow) (t : List BlastRecord),
      attemptCount (send_carrier_emails s lid body carriers now t) lid cid allStatuses =
        attemptCount t lid cid allStatuses +
          carriers.countP (fun c => c.id == cid) := by
  intro carriers
  induction carriers with
  | nil => intro t; simp [send_carrier_emails]
  | cons c cs ih =>
    intro t
    rw [send_carrier_emails]
    have hSENT : allStatuses.contains "SENT" = true := by decide
    have hFAILED : allStatuses.contains "FAILED" = true := by decide
    have hopt : ∀ a b : String, (some a == some b) = (a == b) := fun a b => rfl
    cases hs : s c.id with
    | none =>
        simp only [hs, ih, attemptCount_record, List.countP_cons, hopt, hSENT,
          Bool.and_true]
        cases hc : (c.id == cid) <;> (simp [hc]; try omega)
    | some e =>
        simp only [hs, ih, attemptCount_record, List.countP_cons, hopt, hFAILED,
          Bool.and_true]
        cases hc : (c.id == cid) <;> (simp [hc]; try omega)

/-! ### Claim theorems -/

/-- C1: the claim says a follow-up merge that supplies both missing
fields (`dest_zip`, `weight_lb`) succeeds and completes the load.  In
the code it cannot: on the all-fields-present branch
`update_incomplete_load` calls `detect_freight_complexity(load_text)`
with one argument where two are required, the `TypeError` is caught,
and the update returns failure without writing anything — contradicting
the repository's own test (`test_missing_info_workflow.py` asserts
`success` and `is_complete`).  This theorem evaluates the model at the
failing input. -/
theorem C1_update_incomplete_load_fails :
    update_incomplete_load fxIncompleteLoad fxBothFields
        "<resp@example.com>" "2025-07-21T09:00:00" =
      Except.error
        "TypeError: detect_freight_complexity() missing 1 required positional argument: load_data" :=
  rfl

/-- C2 (counterexample): running the dispatch step twice for the same
load and the same carrier produces two `SENT` dispatch-attempt rows for
the (load, carrier) pair — the second run is not suppressed by the
existing `SENT` row, refuting the claimed idempotency guarantee. -/
theorem C2_counterexample :
    attemptCount (send_carrier_emails fxAllOk "load-9" "Van load offer"
        [fxCarrierRow] "t1" []) "load-9" "car-1" ["SENT", "DELIVERED"] = 1 ∧
    attemptCount (send_carrier_emails fxAllOk "load-9" "Van load offer"
        [fxCarrierRow] "t2"
        (send_carrier_emails fxAllOk "load-9" "Van load offer"
          [fxCarrierRow] "t1" [])) "load-9" "car-1" ["SENT", "DELIVERED"] = 2 := by
  constructor <;> decide

/-- C2 (amended): within a single run of `send_carrier_emails`, each
carrier of the (duplicate-free) selected list gets exactly one
`DispatchAttempt` row for the load; the code performs no per-(load,
carrier) idempotency check, so a re-run adds another row (see the
counterexample) — only `fetch_load`'s coarse `NEW_RFQ` status check
limits full-workflow re-runs. -/
theorem C2_amended (s : String → Option String) (lid body now : String)
    (carriers : List CarrierRow) (t : List BlastRecord) (c : CarrierRow)
    (hc : c ∈ carriers) (hnd : (carriers.map (fun x => x.id)).Nodup) :
    attemptCount (send_carrier_emails s lid body carriers now t) lid c.id allStatuses =
      attemptCount t lid c.id allStatuses + 1 := by
  rw [attemptCount_send]
  congr 1
  have h1 : carriers.countP (fun x => x.id == c.id) =
      (carriers.map (fun x => x.id)).count c.id := by
    rw [List.count, List.countP_map]
    rfl
  rw [h1]
  exact List.count_eq_one_of_mem hnd (List.mem_map_of_mem _ hc)

/-- C2 witness: one dispatch run over a one-carrier list adds exactly
one attempt row for that (load, carrier) pair. -/
theorem C2_witness :
    attemptCount (send_carrier_emails fxAllOk "load-9" "Van load offer"
        [fxCarrierRow] "t1" []) "load-9" fxCarrierRow.id allStatuses =
      attemptCount [] "load-9" fxCarrierRow.id allStatuses + 1 :=
  C2_amended fxAllOk "load-9" "Van load offer" "t1" [fxCarrierRow] [] fxCarrierRow
    (by decide) (by decide)

/-- C3: every load state written by the three load-writing operations
satisfies the completeness invariant `is_complete ↔ missing_fields = []`:
the complete-load write (`ack`), the incomplete-load write
(`save_incomplete_load`, reached only with a non-empty missing list),
and any successful follow-up merge (`update_incomplete_load`). -/
theorem C3_completeness_invariant :
    (∀ d emid esub tid now i ln ca se,
      completenessInv (ackLoad d emid esub tid now i ln ca se)) ∧
    (∀ d m efrom emid tid rmid now i ln ca, m ≠ [] →
      completenessInv (save_incomplete_load d m efrom emid tid rmid now i ln ca)) ∧
    (∀ cur nd mid now l', update_incomplete_load cur nd mid now = Except.ok l' →
      completenessInv l') := by
  refine ⟨?_, ?_, ?_⟩
  · intro d emid esub tid now i ln ca se
    simp [completenessInv, ackLoad]
  · intro d m efrom emid tid rmid now i ln ca hm
    simp [completenessInv, save_incomplete_load, hm]
  · intro cur nd mid now l' h
    unfold update_incomplete_load at h
    by_cases hp : allFieldsPresent cur.fields nd = true
    · simp [hp] at h
    · have hp' : allFieldsPresent cur.fields nd = false := by simpa using hp
      simp only [hp', Bool.false_eq_true, if_false, Except.ok.injEq] at h
      subst h
      simp [completenessInv, hp', stillMissing_ne_nil hp']

/-- C3 witness: the invariant at concrete writes — a complete-load
write, the fixture incomplete-load write, and a follow-up merge that
still leaves `weight_lb` missing. -/
theorem C3_witness :
    completenessInv (ackLoad fxLoadData "<m@x>" "Load" "th-1" "t0" "id-9" "LD-9" 1
      "a@b.example") ∧
    completenessInv (save_incomplete_load fxLoadData ["dest_zip", "weight_lb"]
      "test_shipper@example.com" "<orig@example.com>" "thread-1"
      "<req@ai-broker.example>" "2025-07-20T09:00:00" "load-1" "LD-100" 1) ∧
    completenessInv (applyFollowUp fxIncompleteLoad fxOneField "<resp@example.com>" "t1") :=
  ⟨C3_completeness_invariant.1 fxLoadData "<m@x>" "Load" "th-1" "t0" "id-9" "LD-9" 1
      "a@b.example",
   C3_completeness_invariant.2.1 fxLoadData ["dest_zip", "weight_lb"]
      "test_shipper@example.com" "<orig@example.com>" "thread-1"
      "<req@ai-broker.example>" "2025-07-20T09:00:00" "load-1" "LD-100" 1
      (by decide),
   C3_completeness_invariant.2.2 fxIncompleteLoad fxOneField "<resp@example.com>" "t1"
      (applyFollowUp fxIncompleteLoad fxOneField "<resp@example.com>" "t1") rfl⟩

/-- C4: the complexity classifier is a deterministic pure function —
two runs on equal (text, fields) inputs return equal flag lists and
rationale strings; the model is a Lean function of its two arguments
only, so it has no external state to depend on. -/
theorem C4_classifier_deterministic (t1 t2 : String) (d1 d2 : Dict)
    (ht : t1 = t2) (hd : d1 = d2) :
    detect_freight_complexity t1 d1 = detect_freight_complexity t2 d2 := by
  subst ht; subst hd; rfl

/-- C4 witness: determinism at a concrete input. -/
theorem C4_witness :
    detect_freight_complexity "steel coils on a flatbed"
        [("weight_lb", PyVal.int 45000)] =
      detect_freight_complexity "steel coils on a flatbed"
        [("weight_lb", PyVal.int 45000)] :=
  C4_classifier_deterministic _ _ _ _ rfl rfl

/-- C5: for every free text, structured weight 85,000 (an `int` above
the 80,000 threshold) puts `OVERSIZE` in the flag list, and structured
weight 8,000 with 3 pieces puts `LTL` in the flag list. -/
theorem C5_weight_thresholds (raw_text : String) :
    "OVERSIZE" ∈ (detect_freight_complexity raw_text
        [("weight_lb", PyVal.int 85000)]).1 ∧
    "LTL" ∈ (detect_freight_complexity raw_text
        [("weight_lb", PyVal.int 8000), ("pieces", PyVal.int 3)]).1 :=
  ⟨ov_of_threshold raw_text _ (by decide), ltl_of_threshold raw_text _ (by decide)⟩

/-- C6: a carrier with an exact preferred-lane match, an exact
equipment match, 97% on-time, 0.5% claims, excellent safety, 8% margin
and activity within one day scores the maximum 100, with sub-scores
lane 30, equipment 25, performance 20, price 15, availability 10. -/
theorem C6_max_score (c : Carrier) (load : ScoringLoad)
    (hlane : (strOfOpt load.origin_zip ++ "-" ++ strOfOpt load.dest_zip) ∈ c.preferred_lanes)
    (hequip : lowerAscii (load.equipment.getD "Van") ∈ c.equipment_types.map lowerAscii)
    (hot : c.on_time_pct = some 970)
    (hcl : c.claims_ratio = some 5)
    (hsf : c.safety_rating = some "excellent")
    (hm : c.typical_margin_pct = some 80)
    (hla : ∃ dd, c.last_active_date = some (LastActive.parsed dd) ∧ dd ≤ 1) :
    (score_carrier c load).total_score = 100 ∧
    (score_carrier c load).lane_score = 30 ∧
    (score_carrier c load).equipment_score = 25 ∧
    (score_carrier c load).performance_score = 20 ∧
    (score_carrier c load).price_score = 15 ∧
    (score_carrier c load).availability_score = 10 := by
  obtain ⟨dd, hla, hdd⟩ := hla
  have h1 : (calcLaneScore c load).1 = 30 := by simp [calcLaneScore, hlane]
  have h2 : (calcEquipScore c load).1 = 25 := by simp [calcEquipScore, hequip]
  have h3 : (calcPerfScore c).1 = 20 := by simp [calcPerfScore, hot, hcl, hsf]
  have h4 : (calcPriceScore c).1 = 15 := by simp [calcPriceScore, hm]
  have h5 : (calcAvailScore c).1 = 10 := by simp [calcAvailScore, hla, hdd]
  simp [score_carrier, h1, h2, h3, h4, h5]

/-- C6 witness: the fixture maximum-score carrier against its load. -/
theorem C6_witness :
    (score_carrier fxMaxCarrier fxC6Load).total_score = 100 ∧
    (score_carrier fxMaxCarrier fxC6Load).lane_score = 30 ∧
    (score_carrier fxMaxCarrier fxC6Load).equipment_score = 25 ∧
    (score_carrier fxMaxCarrier fxC6Load).performance_score = 20 ∧
    (score_carrier fxMaxCarrier fxC6Load).price_score = 15 ∧
    (score_carrier fxMaxCarrier fxC6Load).availability_score = 10 :=
  C6_max_score fxMaxCarrier fxC6Load (by decide) (by decide) rfl rfl rfl rfl
    ⟨1, rfl, by decide⟩

/-- C7 (counterexample): two carriers identical in every scored
attribute (hence equal `total_score`) appear in the output in roster
order, not ordered by carrier identifier: swapping the roster swaps the
output, so ties are not broken by identifier. -/
theorem C7_counterexample :
    (match_carriers_for_load [fxTieB, fxTieA] {}).map (fun s => s.carrier_id) =
      ["b2", "a1"] ∧
    (match_carriers_for_load [fxTieA, fxTieB] {}).map (fun s => s.carrier_id) =
      ["a1", "b2"] ∧
    (match_carriers_for_load [fxTieB, fxTieA] {}).map (fun s => s.total_score) =
      [61, 61] := by
  refine ⟨?_, ?_, ?_⟩ <;> decide

/-- C7 (amended): the ranked list is sorted by total score descending,
and carriers with equal total score appear in the order of the scored,
viability-filtered roster (Python's sort is stable) — not reordered by
carrier identifier. -/
theorem C7_amended (carriers : List Carrier) (load : ScoringLoad) :
    (match_carriers_for_load carriers load).Pairwise
      (fun a b : CarrierScore => b.total_score ≤ a.total_score) ∧
    ∀ s : Int,
      (match_carriers_for_load carriers load).filter
          (fun x : CarrierScore => x.total_score == s) =
        ((carriers.map (fun c => score_carrier c load)).filter
          (fun x : CarrierScore => decide (0 < x.total_score))).filter
          (fun x : CarrierScore => x.total_score == s) := by
  constructor
  · exact pairwise_sortByDesc _ _
  · intro s
    exact filter_sortByDesc (fun x : CarrierScore => x.total_score) s _

/-- C8 (counterexample): six incomplete loads of one sender; exactly
one of them (`LD-42`, the oldest) has its load number in the subject,
but the resolver's 5-row query window misses it and the most recent
load (`LD-47`) is returned instead. -/
theorem C8_counterexample :
    (fxDbSix.filter (fun l => loadNumberInSubject l "Re: LD-42")).map
        (fun l => l.load_number) = ["LD-42"] ∧
    find_incomplete_load_by_email fxDbSix "s@x.example" "Re: LD-42" =
      some (fxSenderLoad 6 "LD-47") ∧
    (fxSenderLoad 6 "LD-47").load_number ≠ "LD-42" := by
  refine ⟨?_, ?_, ?_⟩ <;> decide

/-- C8 (amended): when the resolver's candidate window (the sender's
incomplete loads, capped at the 5 most recent) has more than one entry
and exactly one of those entries has its load number in the subject,
that entry is returned — the original claim additionally requires this
for matches outside the 5-row window, where it fails (see the
counterexample). -/
theorem C8_amended (db : List LoadRec) (e subject : String) (l : LoadRec)
    (hlen : 1 < (resolverWindow db e).length)
    (hl : l ∈ resolverWindow db e)
    (hp : loadNumberInSubject l subject = true)
    (huniq : ∀ x ∈ resolverWindow db e, loadNumberInSubject x subject = true → x = l) :
    find_incomplete_load_by_email db e subject = some l := by
  unfold find_incomplete_load_by_email
  cases hw : resolverWindow db e with
  | nil => rw [hw] at hlen; simp at hlen
  | cons a rest =>
    cases rest with
    | nil => rw [hw] at hlen; simp at hlen
    | cons b rest2 =>
      rw [hw] at hl huniq
      have hfind := find?_eq_of_unique
        (fun y => loadNumberInSubject y subject) (a :: b :: rest2) l hl hp huniq
      simp [hfind]

/-- C8 witness: the spec's two-load scenario — the older `LD-42` load
is returned because its number appears in the subject. -/
theorem C8_witness :
    find_incomplete_load_by_email fxDbTwo "s@x.example" "Re: LD-42 info" =
      some (fxSenderLoad 1 "LD-42") :=
  C8_amended fxDbTwo "s@x.example" "Re: LD-42 info" (fxSenderLoad 1 "LD-42")
    (by decide) (by decide) (by decide) (by decide)

/-- C9: merging the same extraction result twice leaves the Field
Ledger state — the required-field values and the missing-field set —
equal to the state after merging it once (a failed merge writes
nothing, a second successful merge rewrites the same values and
recomputes the same missing set). -/
theorem C9_merge_idempotent (cur : LoadRec) (nd : Dict) (m1 n1 m2 n2 : String) :
    REQUIRED.map (dictGet (applyFollowUp (applyFollowUp cur nd m1 n1) nd m2 n2).fields) =
      REQUIRED.map (dictGet (applyFollowUp cur nd m1 n1).fields) ∧
    (applyFollowUp (applyFollowUp cur nd m1 n1) nd m2 n2).missing_fields =
      (applyFollowUp cur nd m1 n1).missing_fields := by
  unfold applyFollowUp update_incomplete_load
  by_cases h : allFieldsPresent cur.fields nd = true
  · simp [h]
  · have h' : allFieldsPresent cur.fields nd = false := by simpa using h
    simp only [h', Bool.false_eq_true, if_false, allFieldsPresent_merge,
      stillMissing_merge]
    constructor
    · apply listMap_congr
      intro f _
      rw [dictGet_mergeUpdated, dictGet_mergeUpdated]
      by_cases hupd : updatedFieldsGet nd f = PyVal.none <;> simp [hupd]
    · trivial

/-- C10: the classifier's numeric weight thresholds only fire for
Python `int` weights — with a non-`int` weight (float or string) and no
oversize text evidence the `OVERSIZE` flag is absent, and a non-`int`
low weight adds neither `LTL` (absent LTL text evidence and the piece
threshold) nor `PARTIAL` (absent partial text evidence). -/
theorem C10_nonint_weight_no_flags (t : String) (d : Dict)
    (hw : pyIsIntLike (dictGetD d "weight_lb" (PyVal.int 0)) = false)
    (hovk : detectedKws oversizeKeywords (lowerAscii t) = [])
    (hovp : firedPats oversizePats (lowerAscii t) = [])
    (hltlk : detectedKws ltlKeywords (lowerAscii t) = [])
    (hltlp : firedPats ltlPats (lowerAscii t) = [])
    (hpieces : ltlPieceThreshold d = false)
    (hpk : detectedKws partKeywords (lowerAscii t) = [])
    (hpp : firedPats partPats (lowerAscii t) = []) :
    "OVERSIZE" ∉ (detect_freight_complexity t d).1 ∧
    "LTL" ∉ (detect_freight_complexity t d).1 ∧
    "PARTIAL" ∉ (detect_freight_complexity t d).1 := by
  have hov : ovCond (lowerAscii t) d = false := by
    simp [ovCond, hovk, hovp, overweightThreshold, hw]
  have hltl : ltlCond (lowerAscii t) d = false := by
    simp [ltlCond, hltlk, hltlp, ltlWeightThreshold, hw, hpieces]
  have hpart : partCond (lowerAscii t) d = false := by
    simp [partCond, hpk, hpp, partWeightThreshold, hw]
  refine ⟨?_, ?_, ?_⟩ <;>
    simp [detect_fst, List.mem_append, mem_flagSeg, hov, hltl, hpart]

/-- C10 witness: the float weight 85000.0 with empty text yields none
of the three flags. -/
theorem C10_witness :
    "OVERSIZE" ∉ (detect_freight_complexity "" [("weight_lb", PyVal.float 85000)]).1 ∧
    "LTL" ∉ (detect_freight_complexity "" [("weight_lb", PyVal.float 85000)]).1 ∧
    "PARTIAL" ∉ (detect_freight_complexity "" [("weight_lb", PyVal.float 85000)]).1 :=
  C10_nonint_weight_no_flags "" [("weight_lb", PyVal.float 85000)]
    (by decide) (by decide) (by decide) (by decide) (by decide) (by decide)
    (by decide) (by decide)
